import Mathlib

/-!
Shallow embedding of the insurance-analyser pipeline
(`src/app/api/analyze/route.ts` and `src/app/page.tsx`):
PDF page truncation, the zod `AcordSchema` validator, the retrying
Gemini caller, the `POST` upload handler, and the client `handleSubmit`.
-/

namespace InsuranceAnalyser

/-- JSON values, the data exchanged with the external model and validated
by the zod schema.  A JS object is a list of key/value pairs; a missing
key (JS `undefined`) is represented by `getField` returning `none`,
which is distinct from a present `Json.null`. -/
inductive Json where
  | null
  | bool (b : Bool)
  | num (n : Int)
  | str (s : String)
  | arr (elems : List Json)
  | obj (fields : List (String × Json))

/-- Look a key up in a JSON object's field list; `none` models JS
`undefined` (key absent). -/
def getField (fields : List (String × Json)) (key : String) : Option Json :=
  match fields with
  | [] => none
  | (k, v) :: rest => if k = key then some v else getField rest key

/-- The single error value produced by schema validation (the spec's
`SchemaMismatch`); zod's message text is irrelevant to control flow. -/
def SchemaMismatch : String := "SchemaMismatch"

/-- zod `z.string()` applied to an object field: accepts only a present
string. -/
def parseStringField : Option Json → Except String String
  | some (.str s) => .ok s
  | _ => .error SchemaMismatch

/-- zod `z.string().nullable()` applied to an object field: accepts a
present string or a present explicit `null`; a missing key (JS
`undefined`) is rejected, since `.nullable()` is not `.optional()`. -/
def parseNullableStringField : Option Json → Except String (Option String)
  | some .null => .ok none
  | some (.str s) => .ok (some s)
  | _ => .error SchemaMismatch

/-- zod `z.number()` applied to an object field. -/
def parseNumberField : Option Json → Except String Int
  | some (.num n) => .ok n
  | _ => .error SchemaMismatch

/-- zod `z.literal('USA')` applied to the `country` field: accepts only
the exact string `"USA"`. -/
def parseCountryField : Option Json → Except String String
  | some (.str s) => if s = "USA" then .ok s else .error SchemaMismatch
  | _ => .error SchemaMismatch

/-- zod `z.array(elem).default([])` applied to an object field: a missing
key yields the default `[]`; a present value must be an array whose
elements all validate. -/
def parseArrayWithDefault (elem : Json → Except String α) :
    Option Json → Except String (List α)
  | none => .ok []
  | some (.arr xs) => xs.mapM elem
  | some _ => .error SchemaMismatch

/-- A required nested `z.object(...)` field: the key must be present and
its value must validate as the nested object. -/
def parseObjectField (p : Json → Except String α) :
    Option Json → Except String α
  | some j => p j
  | none => .error SchemaMismatch

/-- `certificate_information` group of the validated ACORD result. -/
structure CertificateInformation where
  certificate_holder : String
  certificate_number : String
  revision_number : Option String
  issue_date : String

/-- One entry of the `insurers` array. -/
structure Insurer where
  insurer_letter : String
  insurer_name : String
  naic_code : Option String

/-- One entry of a policy's `coverages` array. -/
structure Coverage where
  limit_type : String
  limit_value : Int

/-- `policy_information` group nested in a policy. -/
structure PolicyInformation where
  policy_type : String
  policy_number : String
  effective_date : String
  expiry_date : String

/-- One entry of the `policies` array. -/
structure Policy where
  policy_information : PolicyInformation
  insurer_letter : String
  coverages : List Coverage

/-- `primary_details` group of `producer_information`. -/
structure PrimaryDetails where
  full_name : Option String
  email_address : Option String
  doing_business_as : Option String

/-- `contact_information` group of `producer_information`. -/
structure ContactInformation where
  phone_number : String
  fax_number : Option String
  license_number : Option String

/-- `address_details` group of `producer_information`; `country` is
constrained to the literal `"USA"` by validation. -/
structure AddressDetails where
  address_line_1 : String
  address_line_2 : Option String
  address_line_3 : Option String
  city : String
  state : String
  zip_code : String
  country : String

/-- `producer_information` group of the validated ACORD result. -/
structure ProducerInformation where
  primary_details : PrimaryDetails
  contact_information : ContactInformation
  address_details : AddressDetails

/-- The validated ACORD 25 extraction result (`z.infer<typeof AcordSchema>`). -/
structure Acord where
  certificate_information : CertificateInformation
  insurers : List Insurer
  policies : List Policy
  producer_information : ProducerInformation

/-- Validator for the `certificate_information` nested object. -/
def parseCertificateInformation (j : Json) : Except String CertificateInformation :=
  match j with
  | .obj fields => do
    let ch ← parseStringField (getField fields "certificate_holder")
    let cn ← parseStringField (getField fields "certificate_number")
    let rn ← parseNullableStringField (getField fields "revision_number")
    let idate ← parseStringField (getField fields "issue_date")
    .ok ⟨ch, cn, rn, idate⟩
  | _ => .error SchemaMismatch

/-- Validator for one `insurers` entry. -/
def parseInsurer (j : Json) : Except String Insurer :=
  match j with
  | .obj fields => do
    let il ← parseStringField (getField fields "insurer_letter")
    let iname ← parseStringField (getField fields "insurer_name")
    let naic ← parseNullableStringField (getField fields "naic_code")
    .ok ⟨il, iname, naic⟩
  | _ => .error SchemaMismatch

/-- Validator for one `coverages` entry. -/
def parseCoverage (j : Json) : Except String Coverage :=
  match j with
  | .obj fields => do
    let lt ← parseStringField (getField fields "limit_type")
    let lv ← parseNumberField (getField fields "limit_value")
    .ok ⟨lt, lv⟩
  | _ => .error SchemaMismatch

/-- Validator for the `policy_information` nested object. -/
def parsePolicyInformation (j : Json) : Except String PolicyInformation :=
  match j with
  | .obj fields => do
    let pt ← parseStringField (getField fields "policy_type")
    let pn ← parseStringField (getField fields "policy_number")
    let ed ← parseStringField (getField fields "effective_date")
    let xd ← parseStringField (getField fields "expiry_date")
    .ok ⟨pt, pn, ed, xd⟩
  | _ => .error SchemaMismatch

/-- Validator for one `policies` entry (with `coverages` defaulting to
`[]` when absent). -/
def parsePolicy (j : Json) : Except String Policy :=
  match j with
  | .obj fields => do
    let pinfo ← parseObjectField parsePolicyInformation (getField fields "policy_information")
    let il ← parseStringField (getField fields "insurer_letter")
    let cov ← parseArrayWithDefault parseCoverage (getField fields "coverages")
    .ok ⟨pinfo, il, cov⟩
  | _ => .error SchemaMismatch

/-- Validator for the `primary_details` nested object. -/
def parsePrimaryDetails (j : Json) : Except String PrimaryDetails :=
  match j with
  | .obj fields => do
    let fn ← parseNullableStringField (getField fields "full_name")
    let em ← parseNullableStringField (getField fields "email_address")
    let dba ← parseNullableStringField (getField fields "doing_business_as")
    .ok ⟨fn, em, dba⟩
  | _ => .error SchemaMismatch

/-- Validator for the `contact_information` nested object. -/
def parseContactInformation (j : Json) : Except String ContactInformation :=
  match j with
  | .obj fields => do
    let ph ← parseStringField (getField fields "phone_number")
    let fx ← parseNullableStringField (getField fields "fax_number")
    let lic ← parseNullableStringField (getField fields "license_number")
    .ok ⟨ph, fx, lic⟩
  | _ => .error SchemaMismatch

/-- Validator for the `address_details` nested object, with the
`country` literal constraint. -/
def parseAddressDetails (j : Json) : Except String AddressDetails :=
  match j with
  | .obj fields => do
    let a1 ← parseStringField (getField fields "address_line_1")
    let a2 ← parseNullableStringField (getField fields "address_line_2")
    let a3 ← parseNullableStringField (getField fields "address_line_3")
    let city ← parseStringField (getField fields "city")
    let st ← parseStringField (getField fields "state")
    let zip ← parseStringField (getField fields "zip_code")
    let country ← parseCountryField (getField fields "country")
    .ok ⟨a1, a2, a3, city, st, zip, country⟩
  | _ => .error SchemaMismatch

/-- Validator for the `producer_information` nested object. -/
def parseProducerInformation (j : Json) : Except String ProducerInformation :=
  match j with
  | .obj fields => do
    let pd ← parseObjectField parsePrimaryDetails (getField fields "primary_details")
    let ci ← parseObjectField parseContactInformation (getField fields "contact_information")
    let ad ← parseObjectField parseAddressDetails (getField fields "address_details")
    .ok ⟨pd, ci, ad⟩
  | _ => .error SchemaMismatch

/-- The top-level zod `AcordSchema` validator: four required groups,
with `insurers` and `policies` defaulting to `[]` when absent. -/
def AcordSchemaParse (j : Json) : Except String Acord :=
  match j with
  | .obj fields => do
    let ci ← parseObjectField parseCertificateInformation (getField fields "certificate_information")
    let ins ← parseArrayWithDefault parseInsurer (getField fields "insurers")
    let pol ← parseArrayWithDefault parsePolicy (getField fields "policies")
    let pi ← parseObjectField parseProducerInformation (getField fields "producer_information")
    .ok ⟨ci, ins, pol, pi⟩
  | _ => .error SchemaMismatch

/-- `AcordSchema.nullable()` as used by `generateObject`: a top-level
`null` is accepted outright (no structural validation); anything else
goes through `AcordSchemaParse`. -/
def AcordSchemaNullableParse (j : Json) : Except String (Option Acord) :=
  match j with
  | .null => .ok none
  | _ => (AcordSchemaParse j).map some

/-- JS `haystack.includes(needle)` on strings. -/
def strIncludes (s pat : String) : Bool :=
  decide (List.IsInfix pat.toList s.toList)

/-- `MAX_RETRIES` of the retry loop in `callGeminiUsingAiSdk`. -/
def MAX_RETRIES : Nat := 3

/-- What one attempt of the external model call produces before the AI
SDK's schema validation: a transport/provider failure, or a raw JSON
output (which `generateObject` then validates against
`AcordSchema.nullable()`). -/
inductive AttemptOutcome where
  | providerError (msg : String)
  | output (j : Json)

/-- The result `generateObject` delivers for one attempt: a provider
error propagates, and an output is validated — an invalid output throws
(here `.error`), a valid one returns the (possibly null) object. -/
def attemptExcept (a : AttemptOutcome) : Except String (Option Acord) :=
  match a with
  | .providerError m => .error m
  | .output j => AcordSchemaNullableParse j

/-- The message of the error thrown when the retry loop exhausts
`MAX_RETRIES` attempts (the TS template literal, grouped as a fixed
prefix followed by the stringified last error). -/
def retriesExhaustedMessage (lastError : String) : String :=
  ("Failed to get response from Gemini via AI SDK after " ++ toString MAX_RETRIES ++
    " attempts: ") ++ lastError

/-- Observable outcome of `callGeminiUsingAiSdk`: the returned value or
thrown error, the number of attempts actually made, and the backoff
delays (in milliseconds) awaited between attempts, in order. -/
structure GeminiOutcome where
  result : Except String (Option Acord)
  attemptsMade : Nat
  delaysMs : List Nat

/-- The `while (attempt < MAX_RETRIES)` retry loop of
`callGeminiUsingAiSdk`, with `fuel = MAX_RETRIES - attempt` making the
recursion structural.  `responses i` is what attempt number `i`
(0-based, the JS `attempt` counter at loop entry) produces.  On failure
the counter increments and, if another attempt remains, a delay of
`2^attempt * 1000` ms is awaited.  `attemptsMade` records how many
attempts ran. -/
def retryLoop (responses : Nat → Except String (Option Acord)) :
    Nat → Nat → List Nat → String → GeminiOutcome
  | 0, attempt, delays, lastError =>
    ⟨.error (retriesExhaustedMessage lastError), attempt, delays⟩
  | fuel + 1, attempt, delays, _lastError =>
    match responses attempt with
    | .ok v => ⟨.ok v, attempt + 1, delays⟩
    | .error e =>
      if attempt + 1 < MAX_RETRIES then
        retryLoop responses fuel (attempt + 1) (delays ++ [2 ^ (attempt + 1) * 1000]) e
      else
        retryLoop responses fuel (attempt + 1) delays e

/-- JS `s.trim()`: drop leading and trailing whitespace. -/
def jsTrim (s : String) : String :=
  String.mk (((s.toList.dropWhile Char.isWhitespace).reverse.dropWhile
    Char.isWhitespace).reverse)

/-- The guard `!GEMINI_API_KEY || GEMINI_API_KEY.trim() === ''`:
`none` models an unset environment variable. -/
def geminiKeyMissing (key : Option String) : Bool :=
  match key with
  | none => true
  | some s => s = "" || jsTrim s = ""

/-- `callGeminiUsingAiSdk`: throws a configuration error (zero attempts)
when the key is missing or blank, otherwise runs the retry loop starting
at attempt 0 (the initial JS `lastError = null` renders as `"null"`). -/
def callGeminiUsingAiSdk (key : Option String)
    (responses : Nat → AttemptOutcome) : GeminiOutcome :=
  if geminiKeyMissing key then
    ⟨.error "GEMINI_API_KEY is not set in environment variables", 0, []⟩
  else
    retryLoop (fun i => attemptExcept (responses i)) MAX_RETRIES 0 [] "null"

/-- An uploaded `File`: name, declared media type (`file.type`),
`file.size`, and content bytes. -/
structure UploadFile where
  name : String
  mediaType : String
  size : Nat
  bytes : List Nat

/-- The form data of a request to the upload endpoint: at most one
`file` field. -/
structure UploadRequest where
  file : Option UploadFile

/-- `truncatePDFToFivePagesBuffer`: load the bytes with the PDF library
(`load`, abstract, supplying its own error message on malformed input);
if the page count is at most 5 return the input bytes unchanged,
otherwise copy pages 0–4 into a fresh document and serialize it with
`save`. -/
def truncatePDFToFivePagesBuffer (load : List Nat → Except String (List Page))
    (save : List Page → List Nat) (inputBytes : List Nat) :
    Except String (List Nat) :=
  match load inputBytes with
  | .error e => .error e
  | .ok pdfDoc =>
    if pdfDoc.length ≤ 5 then .ok inputBytes
    else
      let indices : List Nat := [0, 1, 2, 3, 4]
      let copy := (indices.filter (fun i => i < pdfDoc.length)).filterMap
        (fun i => pdfDoc[i]?)
      .ok (save copy)

/-- The catch block of `POST`: a message mentioning `GEMINI_API_KEY` is
replaced by a generic configuration message, a "not a valid PDF" message
is normalized, and anything else is wrapped. -/
def normalizeErrorMessage (message : String) : String :=
  if strIncludes message "GEMINI_API_KEY" then "API key configuration error"
  else if strIncludes message "not a valid PDF" then
    "The uploaded file is not a valid PDF"
  else "Error processing PDF: " ++ message

/-- Body of a JSON response from the upload endpoint: the code builds it
with exactly one of a `data` field or an `error` field. -/
inductive ApiBody where
  | dataField (d : Option Acord)
  | errorField (msg : String)

/-- An HTTP response of the upload endpoint: status and JSON body. -/
structure ApiResponse where
  status : Nat
  body : ApiBody

/-- Result of one `POST` invocation, with two trace observations:
whether the server-side truncation ran, and how many external-model
attempts were made. -/
structure PostResult where
  response : ApiResponse
  truncationRan : Bool
  modelAttempts : Nat

/-- The `POST` handler of `/api/analyze`: file-presence, media-type and
size checks (each an immediate 400), then server-side truncation, then
the retrying Gemini call on the processed bytes; every thrown error is
caught and returned as a 400 with a normalized message, a success as a
200 with a `data` field.  `modelResponses b i` is what attempt `i` of
the external call produces when the uploaded (truncated) bytes are `b`. -/
def POST (key : Option String) (load : List Nat → Except String (List Page))
    (save : List Page → List Nat)
    (modelResponses : List Nat → Nat → AttemptOutcome)
    (req : UploadRequest) : PostResult :=
  match req.file with
  | none => ⟨⟨400, .errorField "No file uploaded"⟩, false, 0⟩
  | some file =>
    if file.mediaType ≠ "application/pdf" then
      ⟨⟨400, .errorField "Uploaded file must be a PDF"⟩, false, 0⟩
    else if file.size > 4 * 1024 * 1024 then
      ⟨⟨400, .errorField "File too large. Max 4MB."⟩, false, 0⟩
    else
      match truncatePDFToFivePagesBuffer load save file.bytes with
      | .error e => ⟨⟨400, .errorField (normalizeErrorMessage e)⟩, true, 0⟩
      | .ok processedBytes =>
        let outcome := callGeminiUsingAiSdk key (modelResponses processedBytes)
        match outcome.result with
        | .error e =>
          ⟨⟨400, .errorField (normalizeErrorMessage e)⟩, true, outcome.attemptsMade⟩
        | .ok json => ⟨⟨200, .dataField json⟩, true, outcome.attemptsMade⟩

/-- `name.replace(/\.pdf$/i, '')` as used when renaming the truncated
client-side file. -/
def stripPdfExt (name : String) : String :=
  if name.toLower.endsWith ".pdf" then name.dropRight 4 else name

/-- Result of the client-side truncation block in `handleSubmit`: the
file that will be sent, and whether the catch branch ran (the
`console.warn` on client-side truncation failure). -/
structure ClientPrepared where
  fileToSend : UploadFile
  warnedTruncationFailure : Bool

/-- The client-side truncation block of `handleSubmit` (page.tsx): load
the selected file's bytes; with more than 5 pages build a new
`.first5.pdf` file from pages 0–4; otherwise keep the original; and if
loading fails, warn and fall back to the original file. -/
def clientTruncateFile (load : List Nat → Except String (List Page))
    (save : List Page → List Nat) (originalFile : UploadFile) : ClientPrepared :=
  match load originalFile.bytes with
  | .error _ => ⟨originalFile, true⟩
  | .ok pdfDoc =>
    if pdfDoc.length > 5 then
      let indices : List Nat := [0, 1, 2, 3, 4]
      let out := save ((indices.filter (fun i => i < pdfDoc.length)).filterMap
        (fun i => pdfDoc[i]?))
      ⟨⟨stripPdfExt originalFile.name ++ ".first5.pdf", "application/pdf",
        out.length, out⟩, false⟩
    else ⟨originalFile, false⟩

/-- The outcome `handleSubmit` leaves in the page state: extracted data
(possibly null) or an error message. -/
inductive AnalysisOutcome where
  | success (d : Option Acord)
  | failure (msg : String)

/-- End-to-end `handleSubmit`: require a selected file, run client-side
truncation (falling back to the original on failure), post the file, and
map the JSON response — a truthy `error` field throws (failure), else
the `data` field (or null) is the success value.  The second component
reports whether the client-side truncation warning fired. -/
def handleSubmit (clientLoad : List Nat → Except String (List PageC))
    (clientSave : List PageC → List Nat)
    (key : Option String) (serverLoad : List Nat → Except String (List PageS))
    (serverSave : List PageS → List Nat)
    (modelResponses : List Nat → Nat → AttemptOutcome)
    (originalFile : Option UploadFile) : AnalysisOutcome × Bool :=
  match originalFile with
  | none => (.failure "Please select a PDF file", false)
  | some f =>
    let prepared := clientTruncateFile clientLoad clientSave f
    let resp := (POST key serverLoad serverSave modelResponses
      ⟨some prepared.fileToSend⟩).response
    match resp.body with
    | .errorField m =>
      if m = "" then (.success none, prepared.warnedTruncationFailure)
      else (.failure m, prepared.warnedTruncationFailure)
    | .dataField d => (.success d, prepared.warnedTruncationFailure)

/-! Concrete sample candidates used to exercise the validator. -/

/-- A fully valid `producer_information` JSON object. -/
def sampleProducerJson : Json :=
  .obj [("primary_details", .obj [("full_name", .null), ("email_address", .null),
          ("doing_business_as", .null)]),
        ("contact_information", .obj [("phone_number", .str "5551234"),
          ("fax_number", .null), ("license_number", .null)]),
        ("address_details", .obj [("address_line_1", .str "1 Main St"),
          ("address_line_2", .null), ("address_line_3", .null),
          ("city", .str "Springfield"), ("state", .str "IL"),
          ("zip_code", .str "62704"), ("country", .str "USA")])]

/-- The validated value of `sampleProducerJson`. -/
def sampleProducerResult : ProducerInformation :=
  ⟨⟨none, none, none⟩, ⟨"5551234", none, none⟩,
    ⟨"1 Main St", none, none, "Springfield", "IL", "62704", "USA"⟩⟩

/-- `certificate_information` fields with the nullable `revision_number`
key absent. -/
def certInfoMissingRevisionFields : List (String × Json) :=
  [("certificate_holder", .str "Acme Corp"), ("certificate_number", .str "CN-1"),
   ("issue_date", .str "01/02/2024")]

/-- `certificate_information` fields with `revision_number` present and
explicitly null. -/
def certInfoNullRevisionFields : List (String × Json) :=
  [("certificate_holder", .str "Acme Corp"), ("certificate_number", .str "CN-1"),
   ("revision_number", .null), ("issue_date", .str "01/02/2024")]

/-- A candidate that is valid except that the nullable leaf
`revision_number` is missing (not explicitly null). -/
def candidateMissingRevision : Json :=
  .obj [("certificate_information", .obj certInfoMissingRevisionFields),
        ("insurers", .arr []), ("policies", .arr []),
        ("producer_information", sampleProducerJson)]

/-- The same candidate with `revision_number` present and null. -/
def candidateNullRevision : Json :=
  .obj [("certificate_information", .obj certInfoNullRevisionFields),
        ("insurers", .arr []), ("policies", .arr []),
        ("producer_information", sampleProducerJson)]

/-- The validated value of `candidateNullRevision`. -/
def candidateNullRevisionResult : Acord :=
  ⟨⟨"Acme Corp", "CN-1", none, "01/02/2024"⟩, [], [], sampleProducerResult⟩

/-- A valid candidate whose `insurers` list field is absent entirely. -/
def noInsurersFields : List (String × Json) :=
  [("certificate_information", .obj certInfoNullRevisionFields),
   ("policies", .arr []), ("producer_information", sampleProducerJson)]

/-! Helper lemmas. -/

/-- Unfolding the retry loop at zero fuel. -/
theorem retryLoop_zero (responses : Nat → Except String (Option Acord))
    (attempt : Nat) (delays : List Nat) (lastError : String) :
    retryLoop responses 0 attempt delays lastError =
      ⟨.error (retriesExhaustedMessage lastError), attempt, delays⟩ := rfl

/-- Unfolding the retry loop at positive fuel. -/
theorem retryLoop_succ (responses : Nat → Except String (Option Acord))
    (fuel attempt : Nat) (delays : List Nat) (lastError : String) :
    retryLoop responses (fuel + 1) attempt delays lastError =
      match responses attempt with
      | .ok v => ⟨.ok v, attempt + 1, delays⟩
      | .error e =>
        if attempt + 1 < MAX_RETRIES then
          retryLoop responses fuel (attempt + 1) (delays ++ [2 ^ (attempt + 1) * 1000]) e
        else
          retryLoop responses fuel (attempt + 1) delays e := rfl

/-- String concatenation on the right preserves `strIncludes`. -/
theorem strIncludes_append_left (a b pat : String)
    (h : strIncludes a pat = true) : strIncludes (a ++ b) pat = true := by
  unfold strIncludes at h ⊢
  rw [decide_eq_true_iff] at h ⊢
  have hab : (a ++ b).toList = a.toList ++ b.toList := rfl
  rw [hab]
  obtain ⟨s, t, hst⟩ := h
  exact ⟨s, t ++ b.toList, by rw [← hst]; simp⟩

/-- With more than five pages, copying pages 0–4 (`indices.filter` then
`copyPages`) yields exactly the first five pages in order. -/
theorem firstFivePages {α : Type} (l : List α) (h : 5 < l.length) :
    (([0, 1, 2, 3, 4] : List Nat).filter (fun i => i < l.length)).filterMap
      (fun i => l[i]?) = l.take 5 := by
  rcases l with _ | ⟨a, _ | ⟨b, _ | ⟨c, _ | ⟨d, _ | ⟨e, rest⟩⟩⟩⟩⟩ <;>
    simp_all [List.filter, List.filterMap]

/-- When the first attempt of the external call returns a top-level
`null`, the caller succeeds immediately: one attempt, no delay. -/
theorem gemini_null_first_attempt (key : Option String)
    (responses : Nat → AttemptOutcome) (hkey : geminiKeyMissing key = false)
    (h0 : responses 0 = .output .null) :
    callGeminiUsingAiSdk key responses = ⟨.ok none, 1, []⟩ := by
  unfold callGeminiUsingAiSdk
  rw [hkey]
  simp only [Bool.false_eq_true, if_false, MAX_RETRIES]
  rw [show (3 : Nat) = 2 + 1 from rfl, retryLoop_succ]
  simp [h0, attemptExcept, AcordSchemaNullableParse]

/-- The only error `parseStringField` produces is `SchemaMismatch`. -/
theorem parseStringField_error {o : Option Json} {e : String}
    (h : parseStringField o = .error e) : e = SchemaMismatch := by
  unfold parseStringField at h
  split at h <;> simp_all

/-- The only error `parseNullableStringField` produces is `SchemaMismatch`. -/
theorem parseNullableStringField_error {o : Option Json} {e : String}
    (h : parseNullableStringField o = .error e) : e = SchemaMismatch := by
  unfold parseNullableStringField at h
  split at h <;> simp_all

/-- The only error `parseCountryField` produces is `SchemaMismatch`. -/
theorem parseCountryField_error {o : Option Json} {e : String}
    (h : parseCountryField o = .error e) : e = SchemaMismatch := by
  unfold parseCountryField at h
  split at h <;> (try split at h) <;> simp_all

/-- A present `country` value other than the string `"USA"` fails the
literal check. -/
theorem parseCountryField_not_usa {j : Json} (hne : j ≠ .str "USA") :
    parseCountryField (some j) = .error SchemaMismatch := by
  unfold parseCountryField
  split <;> simp_all

/-- `parseAddressDetails` on an object either succeeds — with the
`country` component coming from the literal check — or fails with
`SchemaMismatch`. -/
theorem parseAddressDetails_obj_cases (fields : List (String × Json)) :
    (∃ r : AddressDetails, parseAddressDetails (.obj fields) = .ok r ∧
      parseCountryField (getField fields "country") = .ok r.country) ∨
    parseAddressDetails (.obj fields) = .error SchemaMismatch := by
  unfold parseAddressDetails
  simp only [bind, Except.bind]
  cases h1 : parseStringField (getField fields "address_line_1") with
  | error e1 => right; simp only [h1]; rw [parseStringField_error h1]
  | ok a1 =>
  simp only [h1]
  cases h2 : parseNullableStringField (getField fields "address_line_2") with
  | error e2 => right; simp only [h2]; rw [parseNullableStringField_error h2]
  | ok a2 =>
  simp only [h2]
  cases h3 : parseNullableStringField (getField fields "address_line_3") with
  | error e3 => right; simp only [h3]; rw [parseNullableStringField_error h3]
  | ok a3 =>
  simp only [h3]
  cases h4 : parseStringField (getField fields "city") with
  | error e4 => right; simp only [h4]; rw [parseStringField_error h4]
  | ok city =>
  simp only [h4]
  cases h5 : parseStringField (getField fields "state") with
  | error e5 => right; simp only [h5]; rw [parseStringField_error h5]
  | ok st =>
  simp only [h5]
  cases h6 : parseStringField (getField fields "zip_code") with
  | error e6 => right; simp only [h6]; rw [parseStringField_error h6]
  | ok zip =>
  simp only [h6]
  cases h7 : parseCountryField (getField fields "country") with
  | error e7 => right; simp only [h7]; rw [parseCountryField_error h7]
  | ok country =>
  left
  exact ⟨⟨a1, a2, a3, city, st, zip, country⟩, rfl, rfl⟩

/-- Success inversion for the top-level schema: each of the four group
components validated. -/
theorem AcordSchemaParse_obj_ok {fields : List (String × Json)} {r : Acord}
    (h : AcordSchemaParse (.obj fields) = .ok r) :
    parseObjectField parseCertificateInformation
      (getField fields "certificate_information") = .ok r.certificate_information ∧
    parseArrayWithDefault parseInsurer (getField fields "insurers") = .ok r.insurers ∧
    parseArrayWithDefault parsePolicy (getField fields "policies") = .ok r.policies ∧
    parseObjectField parseProducerInformation
      (getField fields "producer_information") = .ok r.producer_information := by
  unfold AcordSchemaParse at h
  simp only [bind, Except.bind] at h
  cases h1 : parseObjectField parseCertificateInformation
      (getField fields "certificate_information") with
  | error e => simp only [h1] at h; exact Except.noConfusion h
  | ok ci =>
  simp only [h1] at h
  cases h2 : parseArrayWithDefault parseInsurer (getField fields "insurers") with
  | error e => simp only [h2] at h; exact Except.noConfusion h
  | ok ins =>
  simp only [h2] at h
  cases h3 : parseArrayWithDefault parsePolicy (getField fields "policies") with
  | error e => simp only [h3] at h; exact Except.noConfusion h
  | ok pol =>
  simp only [h3] at h
  cases h4 : parseObjectField parseProducerInformation
      (getField fields "producer_information") with
  | error e => simp only [h4] at h; exact Except.noConfusion h
  | ok pi =>
  simp only [h4] at h
  cases h
  exact ⟨rfl, rfl, rfl, rfl⟩

/-- Success inversion for one policy: its `coverages` component
validated (in particular, defaulted to `[]` when absent). -/
theorem parsePolicy_obj_ok {fields : List (String × Json)} {p : Policy}
    (h : parsePolicy (.obj fields) = .ok p) :
    parseArrayWithDefault parseCoverage (getField fields "coverages") = .ok p.coverages := by
  unfold parsePolicy at h
  simp only [bind, Except.bind] at h
  cases h1 : parseObjectField parsePolicyInformation
      (getField fields "policy_information") with
  | error e => simp only [h1] at h; exact Except.noConfusion h
  | ok pinfo =>
  simp only [h1] at h
  cases h2 : parseStringField (getField fields "insurer_letter") with
  | error e => simp only [h2] at h; exact Except.noConfusion h
  | ok il =>
  simp only [h2] at h
  cases h3 : parseArrayWithDefault parseCoverage (getField fields "coverages") with
  | error e => simp only [h3] at h; exact Except.noConfusion h
  | ok cov =>
  simp only [h3] at h
  cases h
  exact rfl

/-- Success inversion for `certificate_information`: its
`revision_number` component came from the nullable-string check. -/
theorem parseCertificateInformation_revision {fields : List (String × Json)}
    {r : CertificateInformation}
    (h : parseCertificateInformation (.obj fields) = .ok r) :
    parseNullableStringField (getField fields "revision_number") = .ok r.revision_number := by
  unfold parseCertificateInformation at h
  simp only [bind, Except.bind] at h
  cases h1 : parseStringField (getField fields "certificate_holder") with
  | error e => simp only [h1] at h; exact Except.noConfusion h
  | ok ch =>
  simp only [h1] at h
  cases h2 : parseStringField (getField fields "certificate_number") with
  | error e => simp only [h2] at h; exact Except.noConfusion h
  | ok cn =>
  simp only [h2] at h
  cases h3 : parseNullableStringField (getField fields "revision_number") with
  | error e => simp only [h3] at h; exact Except.noConfusion h
  | ok rn =>
  simp only [h3] at h
  cases h4 : parseStringField (getField fields "issue_date") with
  | error e => simp only [h4] at h; exact Except.noConfusion h
  | ok idate =>
  simp only [h4] at h
  cases h
  exact rfl

/-! Claim theorems. -/

/-- C1: when every attempt of the external model call fails (provider
error or schema-validation failure), `callGeminiUsingAiSdk` makes
exactly `MAX_RETRIES = 3` attempts, waits 2 seconds (2000 ms) before the
second attempt and 4 seconds (4000 ms) before the third, and terminates
with a failure whose message references the attempt count
(`"after 3 attempts"`). -/
theorem C1_retry_exhaustion
    (key : Option String) (responses : Nat → AttemptOutcome) (e0 e1 e2 : String)
    (hkey : geminiKeyMissing key = false)
    (h0 : attemptExcept (responses 0) = .error e0)
    (h1 : attemptExcept (responses 1) = .error e1)
    (h2 : attemptExcept (responses 2) = .error e2) :
    callGeminiUsingAiSdk key responses =
      ⟨.error (retriesExhaustedMessage e2), 3, [2000, 4000]⟩ ∧
    strIncludes (retriesExhaustedMessage e2) "after 3 attempts" = true := by
  constructor
  · unfold callGeminiUsingAiSdk
    rw [hkey]
    simp only [Bool.false_eq_true, if_false, MAX_RETRIES]
    rw [show (3 : Nat) = 2 + 1 from rfl, retryLoop_succ]
    simp only [h0, MAX_RETRIES]
    norm_num
    rw [show (2 : Nat) = 1 + 1 from rfl, retryLoop_succ]
    simp only [h1, MAX_RETRIES]
    norm_num
    rw [show (1 : Nat) = 0 + 1 from rfl, retryLoop_succ]
    simp only [h2, MAX_RETRIES]
    norm_num [retryLoop_zero]
  · unfold retriesExhaustedMessage
    exact strIncludes_append_left _ _ _ (by decide)

/-- C1 witness: with a present key and a provider error on every
attempt, the caller makes 3 attempts, waits 2000 ms then 4000 ms, and
fails with the attempt-count message. -/
theorem C1_retry_exhaustion_witness :
    geminiKeyMissing (some "k") = false ∧
    attemptExcept (AttemptOutcome.providerError "boom") = .error "boom" ∧
    (callGeminiUsingAiSdk (some "k") (fun _ => .providerError "boom") =
      ⟨.error (retriesExhaustedMessage "boom"), 3, [2000, 4000]⟩ ∧
    strIncludes (retriesExhaustedMessage "boom") "after 3 attempts" = true) :=
  ⟨by decide, rfl,
    C1_retry_exhaustion (some "k") (fun _ => .providerError "boom") "boom" "boom" "boom"
      (by decide) rfl rfl rfl⟩

/-- C3: for every input that the PDF library parses with page count at
most 5, truncation is the identity on the bytes — the server-side
`truncatePDFToFivePagesBuffer` returns the input bytes unchanged, and
the client-side run forwards the original file unchanged (and without
warning). -/
theorem C3_truncation_identity_upto_five_pages
    {Page : Type} (load : List Nat → Except String (List Page))
    (save : List Page → List Nat) (bytes : List Nat) (pages : List Page)
    (hload : load bytes = .ok pages) (hlen : pages.length ≤ 5) :
    truncatePDFToFivePagesBuffer load save bytes = .ok bytes ∧
    ∀ f : UploadFile, f.bytes = bytes →
      clientTruncateFile load save f = ⟨f, false⟩ := by
  constructor
  · unfold truncatePDFToFivePagesBuffer
    rw [hload]
    simp [hlen]
  · intro f hf
    have h5 : ¬ pages.length > 5 := by omega
    unfold clientTruncateFile
    rw [hf, hload]
    simp [h5]

/-- C3 witness: a 3-page parse of the bytes `[7, 8]` is returned
byte-identical by the server truncation, and the client run forwards the
original file. -/
theorem C3_truncation_identity_upto_five_pages_witness :
    (fun _ : List Nat => (Except.ok [(), (), ()] : Except String (List Unit))) [7, 8] =
      .ok [(), (), ()] ∧
    ([(), (), ()] : List Unit).length ≤ 5 ∧
    truncatePDFToFivePagesBuffer
      (fun _ : List Nat => (Except.ok [(), (), ()] : Except String (List Unit)))
      (fun _ => []) [7, 8] = .ok [7, 8] ∧
    clientTruncateFile
      (fun _ : List Nat => (Except.ok [(), (), ()] : Except String (List Unit)))
      (fun _ => []) ⟨"a.pdf", "application/pdf", 2, [7, 8]⟩ =
      ⟨⟨"a.pdf", "application/pdf", 2, [7, 8]⟩, false⟩ :=
  ⟨rfl, by decide,
    (C3_truncation_identity_upto_five_pages _ _ [7, 8] [(), (), ()] rfl (by decide)).1,
    (C3_truncation_identity_upto_five_pages _ _ [7, 8] [(), (), ()] rfl (by decide)).2
      ⟨"a.pdf", "application/pdf", 2, [7, 8]⟩ rfl⟩

/-- C4: for every input that the PDF library parses with more than 5
pages, `truncatePDFToFivePagesBuffer` returns the serialization of
exactly the first 5 pages (indices 0–4) in their original order. -/
theorem C4_truncation_first_five_pages
    {Page : Type} (load : List Nat → Except String (List Page))
    (save : List Page → List Nat) (bytes : List Nat) (pages : List Page)
    (hload : load bytes = .ok pages) (hlen : 5 < pages.length) :
    truncatePDFToFivePagesBuffer load save bytes = .ok (save (pages.take 5)) := by
  have h5 : ¬ pages.length ≤ 5 := by omega
  unfold truncatePDFToFivePagesBuffer
  rw [hload]
  simp [h5, firstFivePages pages hlen]

/-- C4 witness: a 6-page parse is truncated to the serialization of its
first 5 pages in order. -/
theorem C4_truncation_first_five_pages_witness :
    (fun _ : List Nat =>
      (Except.ok [10, 20, 30, 40, 50, 60] : Except String (List Nat))) [9] =
      .ok [10, 20, 30, 40, 50, 60] ∧
    5 < ([10, 20, 30, 40, 50, 60] : List Nat).length ∧
    truncatePDFToFivePagesBuffer
      (fun _ : List Nat =>
        (Except.ok [10, 20, 30, 40, 50, 60] : Except String (List Nat)))
      (fun l => l) [9] = .ok [10, 20, 30, 40, 50] :=
  ⟨rfl, by decide, by
    have h := C4_truncation_first_five_pages
      (fun _ : List Nat =>
        (Except.ok [10, 20, 30, 40, 50, 60] : Except String (List Nat)))
      (fun l => l) [9] [10, 20, 30, 40, 50, 60] rfl (by decide)
    simpa using h⟩

/-- C5: a top-level `null` from the external model bypasses structural
schema validation (`AcordSchemaNullableParse Json.null = .ok none`), the
caller accepts it on the first attempt with no retry and no backoff
wait, and the `POST` handler delivers a 200 response whose `data` field
is null — never a validation error. -/
theorem C5_top_level_null_is_success
    {Page : Type} (key : Option String)
    (load : List Nat → Except String (List Page)) (save : List Page → List Nat)
    (modelResponses : List Nat → Nat → AttemptOutcome) (f : UploadFile)
    (processed : List Nat)
    (hkey : geminiKeyMissing key = false)
    (hpdf : f.mediaType = "application/pdf")
    (hsize : f.size ≤ 4 * 1024 * 1024)
    (htrunc : truncatePDFToFivePagesBuffer load save f.bytes = .ok processed)
    (h0 : modelResponses processed 0 = .output .null) :
    AcordSchemaNullableParse Json.null = .ok none ∧
    callGeminiUsingAiSdk key (modelResponses processed) = ⟨.ok none, 1, []⟩ ∧
    POST key load save modelResponses ⟨some f⟩ =
      ⟨⟨200, .dataField none⟩, true, 1⟩ := by
  refine ⟨rfl, gemini_null_first_attempt key (modelResponses processed) hkey h0, ?_⟩
  have hs : ¬ f.size > 4 * 1024 * 1024 := by omega
  unfold POST
  simp only [hpdf, ne_eq, not_true_eq_false, if_false, hs, htrunc,
    gemini_null_first_attempt key (modelResponses processed) hkey h0]

/-- C5 witness: a 1-page PDF upload whose first model response is the
literal `null` yields a 200 response carrying null data after exactly
one attempt. -/
theorem C5_top_level_null_is_success_witness :
    geminiKeyMissing (some "k") = false ∧
    truncatePDFToFivePagesBuffer
      (fun _ : List Nat => (Except.ok [()] : Except String (List Unit)))
      (fun _ => []) [7] = .ok [7] ∧
    POST (some "k")
      (fun _ : List Nat => (Except.ok [()] : Except String (List Unit)))
      (fun _ => []) (fun _ _ => .output .null)
      ⟨some ⟨"a.pdf", "application/pdf", 1, [7]⟩⟩ =
      ⟨⟨200, .dataField none⟩, true, 1⟩ :=
  ⟨by decide, rfl,
    (C5_top_level_null_is_success (some "k")
      (fun _ : List Nat => (Except.ok [()] : Except String (List Unit)))
      (fun _ => []) (fun _ _ => .output .null)
      ⟨"a.pdf", "application/pdf", 1, [7]⟩ [7]
      (by decide) rfl (by decide) rfl rfl).2.2⟩

/-- C6: with the credential absent or blank, the caller throws the
configuration error immediately — zero attempts, no backoff delays —
and `POST` surfaces it as a 400 response with the generic message
`"API key configuration error"`, which does not contain the credential
name `GEMINI_API_KEY`. -/
theorem C6_missing_credential_no_attempts
    {Page : Type} (key : Option String) (responses : Nat → AttemptOutcome)
    (load : List Nat → Except String (List Page)) (save : List Page → List Nat)
    (modelResponses : List Nat → Nat → AttemptOutcome) (f : UploadFile)
    (processed : List Nat)
    (hkey : geminiKeyMissing key = true)
    (hpdf : f.mediaType = "application/pdf")
    (hsize : f.size ≤ 4 * 1024 * 1024)
    (htrunc : truncatePDFToFivePagesBuffer load save f.bytes = .ok processed) :
    callGeminiUsingAiSdk key responses =
      ⟨.error "GEMINI_API_KEY is not set in environment variables", 0, []⟩ ∧
    POST key load save modelResponses ⟨some f⟩ =
      ⟨⟨400, .errorField "API key configuration error"⟩, true, 0⟩ ∧
    strIncludes "API key configuration error" "GEMINI_API_KEY" = false := by
  have hcall : ∀ r : Nat → AttemptOutcome, callGeminiUsingAiSdk key r =
      ⟨.error "GEMINI_API_KEY is not set in environment variables", 0, []⟩ := by
    intro r
    unfold callGeminiUsingAiSdk
    rw [hkey]
    simp
  refine ⟨hcall responses, ?_, by decide⟩
  have hs : ¬ f.size > 4 * 1024 * 1024 := by omega
  unfold POST
  simp only [hpdf, ne_eq, not_true_eq_false, if_false, hs, htrunc,
    hcall (modelResponses processed)]
  have hnorm : normalizeErrorMessage
      "GEMINI_API_KEY is not set in environment variables" =
      "API key configuration error" := by decide
  simp [hnorm]

/-- C6 witness: with the environment variable unset, a valid 1-page PDF
upload is answered by a 400 "API key configuration error" with zero
model attempts, and the message does not mention `GEMINI_API_KEY`. -/
theorem C6_missing_credential_no_attempts_witness :
    geminiKeyMissing none = true ∧
    POST none
      (fun _ : List Nat => (Except.ok [()] : Except String (List Unit)))
      (fun _ => []) (fun _ _ => .output .null)
      ⟨some ⟨"a.pdf", "application/pdf", 1, [7]⟩⟩ =
      ⟨⟨400, .errorField "API key configuration error"⟩, true, 0⟩ ∧
    strIncludes "API key configuration error" "GEMINI_API_KEY" = false :=
  ⟨by decide,
    (C6_missing_credential_no_attempts none (fun _ => .output .null)
      (fun _ : List Nat => (Except.ok [()] : Except String (List Unit)))
      (fun _ => []) (fun _ _ => .output .null)
      ⟨"a.pdf", "application/pdf", 1, [7]⟩ [7]
      (by decide) rfl (by decide) rfl).2.1,
    by decide⟩

/-- C8: an uploaded file larger than 4 MiB is rejected with a 400
response and a descriptive error before any processing: the truncation
never runs and no external-model attempt is made; when the file's
declared type is PDF the message is exactly `"File too large. Max
4MB."`. -/
theorem C8_oversized_rejected_before_processing
    {Page : Type} (key : Option String)
    (load : List Nat → Except String (List Page)) (save : List Page → List Nat)
    (modelResponses : List Nat → Nat → AttemptOutcome) (f : UploadFile)
    (hsize : 4 * 1024 * 1024 < f.size) :
    (∃ m, POST key load save modelResponses ⟨some f⟩ =
      ⟨⟨400, .errorField m⟩, false, 0⟩) ∧
    (f.mediaType = "application/pdf" →
      POST key load save modelResponses ⟨some f⟩ =
        ⟨⟨400, .errorField "File too large. Max 4MB."⟩, false, 0⟩) := by
  unfold POST
  dsimp only
  by_cases hm : f.mediaType = "application/pdf"
  · simp [hm, hsize]
  · simp [hm]

/-- C8 witness: a 5 MiB PDF upload is rejected with the file-too-large
message, with no truncation and zero model attempts. -/
theorem C8_oversized_rejected_before_processing_witness :
    4 * 1024 * 1024 < (5 * 1024 * 1024 : Nat) ∧
    POST (some "k")
      (fun _ : List Nat => (Except.ok [()] : Except String (List Unit)))
      (fun _ => []) (fun _ _ => .output .null)
      ⟨some ⟨"big.pdf", "application/pdf", 5 * 1024 * 1024, [7]⟩⟩ =
      ⟨⟨400, .errorField "File too large. Max 4MB."⟩, false, 0⟩ :=
  ⟨by decide,
    (C8_oversized_rejected_before_processing (some "k")
      (fun _ : List Nat => (Except.ok [()] : Except String (List Unit)))
      (fun _ => []) (fun _ _ => .output .null)
      ⟨"big.pdf", "application/pdf", 5 * 1024 * 1024, [7]⟩ (by decide)).2 rfl⟩

/-- C10: every `POST` response carries exactly one of a `data` field (in
which case the status is 200) or an `error` field (in which case the
status is exactly 400); no path returns a 5xx status. -/
theorem C10_response_status_and_body_shape
    {Page : Type} (key : Option String)
    (load : List Nat → Except String (List Page)) (save : List Page → List Nat)
    (modelResponses : List Nat → Nat → AttemptOutcome)
    (req : UploadRequest) :
    ((POST key load save modelResponses req).response.status = 200 ∧
      ∃ d, (POST key load save modelResponses req).response.body = .dataField d) ∨
    ((POST key load save modelResponses req).response.status = 400 ∧
      ∃ m, (POST key load save modelResponses req).response.body = .errorField m) := by
  unfold POST
  rcases req with ⟨_ | f⟩
  · simp
  · dsimp only
    split
    · simp
    · split
      · simp
      · split
        · simp
        · split
          · simp
          · simp

/-- C7: when the client-side truncation fails (the PDF library rejects
the bytes), `handleSubmit` catches the failure, logs the warning, and
forwards the original file unmodified instead of aborting; and for any
request passing the file checks, the server-side truncation runs
unconditionally on the bytes that arrive. -/
theorem C7_client_truncation_failure_falls_back
    {PageC PageS : Type} (clientLoad : List Nat → Except String (List PageC))
    (clientSave : List PageC → List Nat)
    (key : Option String) (serverLoad : List Nat → Except String (List PageS))
    (serverSave : List PageS → List Nat)
    (modelResponses : List Nat → Nat → AttemptOutcome)
    (f : UploadFile) (e : String)
    (hfail : clientLoad f.bytes = .error e) :
    clientTruncateFile clientLoad clientSave f = ⟨f, true⟩ ∧
    (handleSubmit clientLoad clientSave key serverLoad serverSave modelResponses
      (some f)).2 = true ∧
    (f.mediaType = "application/pdf" → f.size ≤ 4 * 1024 * 1024 →
      (POST key serverLoad serverSave modelResponses ⟨some f⟩).truncationRan = true) := by
  have h1 : clientTruncateFile clientLoad clientSave f = ⟨f, true⟩ := by
    unfold clientTruncateFile
    rw [hfail]
  refine ⟨h1, ?_, ?_⟩
  · simp only [handleSubmit, h1]
    split <;> first | rfl | (split <;> rfl)
  · intro hm hs
    have hs2 : ¬ f.size > 4 * 1024 * 1024 := by omega
    unfold POST
    simp only [hm, ne_eq, not_true_eq_false, if_false, hs2]
    split
    · simp
    · split <;> simp

/-- C7 witness: a client-side load failure on a valid 1-page upload
logs the warning, forwards the original file, and the server-side
truncation still runs. -/
theorem C7_client_truncation_failure_falls_back_witness :
    (fun _ : List Nat => (Except.error "bad" : Except String (List Unit))) [7] =
      .error "bad" ∧
    clientTruncateFile
      (fun _ : List Nat => (Except.error "bad" : Except String (List Unit)))
      (fun _ => []) ⟨"a.pdf", "application/pdf", 1, [7]⟩ =
      ⟨⟨"a.pdf", "application/pdf", 1, [7]⟩, true⟩ ∧
    (handleSubmit
      (fun _ : List Nat => (Except.error "bad" : Except String (List Unit)))
      (fun _ => []) (some "k")
      (fun _ : List Nat => (Except.ok [()] : Except String (List Unit)))
      (fun _ => []) (fun _ _ => .output .null)
      (some ⟨"a.pdf", "application/pdf", 1, [7]⟩)).2 = true ∧
    (POST (some "k")
      (fun _ : List Nat => (Except.ok [()] : Except String (List Unit)))
      (fun _ => []) (fun _ _ => .output .null)
      ⟨some ⟨"a.pdf", "application/pdf", 1, [7]⟩⟩).truncationRan = true :=
  ⟨rfl,
    (C7_client_truncation_failure_falls_back
      (fun _ : List Nat => (Except.error "bad" : Except String (List Unit)))
      (fun _ => []) (some "k")
      (fun _ : List Nat => (Except.ok [()] : Except String (List Unit)))
      (fun _ => []) (fun _ _ => .output .null)
      ⟨"a.pdf", "application/pdf", 1, [7]⟩ "bad" rfl).1,
    (C7_client_truncation_failure_falls_back
      (fun _ : List Nat => (Except.error "bad" : Except String (List Unit)))
      (fun _ => []) (some "k")
      (fun _ : List Nat => (Except.ok [()] : Except String (List Unit)))
      (fun _ => []) (fun _ _ => .output .null)
      ⟨"a.pdf", "application/pdf", 1, [7]⟩ "bad" rfl).2.1,
    (C7_client_truncation_failure_falls_back
      (fun _ : List Nat => (Except.error "bad" : Except String (List Unit)))
      (fun _ => []) (some "k")
      (fun _ : List Nat => (Except.ok [()] : Except String (List Unit)))
      (fun _ => []) (fun _ _ => .output .null)
      ⟨"a.pdf", "application/pdf", 1, [7]⟩ "bad" rfl).2.2 rfl (by decide)⟩

/-- C9: a candidate whose `country` field under `address_details` holds
any value other than the literal string `"USA"` fails validation with
`SchemaMismatch`; the value `"USA"` itself passes the country-field
check. -/
theorem C9_country_literal_constraint
    (fields : List (String × Json)) (j : Json)
    (hg : getField fields "country" = some j) (hne : j ≠ .str "USA") :
    parseAddressDetails (.obj fields) = .error SchemaMismatch ∧
    parseCountryField (some (.str "USA")) = .ok "USA" := by
  refine ⟨?_, rfl⟩
  rcases parseAddressDetails_obj_cases fields with ⟨r, _, hc⟩ | herr
  · rw [hg, parseCountryField_not_usa hne] at hc
    exact Except.noConfusion hc
  · exact herr

/-- C9 witness: an address object whose `country` is `"Canada"` fails
with `SchemaMismatch`, while `"USA"` passes the country-field check. -/
theorem C9_country_literal_constraint_witness :
    getField [("country", Json.str "Canada")] "country" = some (.str "Canada") ∧
    Json.str "Canada" ≠ Json.str "USA" ∧
    parseAddressDetails (.obj [("country", Json.str "Canada")]) =
      .error SchemaMismatch ∧
    parseCountryField (some (.str "USA")) = .ok "USA" :=
  ⟨rfl, by simp,
    (C9_country_literal_constraint [("country", Json.str "Canada")]
      (.str "Canada") rfl (by simp)).1,
    (C9_country_literal_constraint [("country", Json.str "Canada")]
      (.str "Canada") rfl (by simp)).2⟩

/-- C2 counterexample: a candidate that is valid in every respect except
that the nullable leaf `revision_number` is absent is REJECTED by the
validator (zod `.nullable()` does not accept a missing key), while the
identical candidate with an explicit null `revision_number` validates —
refuting the claim that a missing nullable leaf resolves to null. -/
theorem C2_missing_nullable_leaf_counterexample :
    getField certInfoMissingRevisionFields "revision_number" = none ∧
    AcordSchemaParse candidateMissingRevision = .error SchemaMismatch ∧
    AcordSchemaParse candidateNullRevision = .ok candidateNullRevisionResult :=
  ⟨rfl, rfl, rfl⟩

/-- C2 amended: a missing list field (`insurers`, `policies`,
`coverages`) resolves to an empty list in the validated result; a
nullable leaf field resolves to null when present with an explicit null
value; but a missing nullable leaf field is a validation failure, not a
null. -/
theorem C2_missing_field_defaults
    : (∀ (fields : List (String × Json)) (r : Acord),
        AcordSchemaParse (.obj fields) = .ok r →
        getField fields "insurers" = none → r.insurers = []) ∧
      (∀ (fields : List (String × Json)) (r : Acord),
        AcordSchemaParse (.obj fields) = .ok r →
        getField fields "policies" = none → r.policies = []) ∧
      (∀ (fields : List (String × Json)) (p : Policy),
        parsePolicy (.obj fields) = .ok p →
        getField fields "coverages" = none → p.coverages = []) ∧
      (∀ (fields : List (String × Json)),
        getField fields "revision_number" = none →
        ∀ r, parseCertificateInformation (.obj fields) ≠ .ok r) ∧
      (∀ (fields : List (String × Json)) (r : CertificateInformation),
        parseCertificateInformation (.obj fields) = .ok r →
        getField fields "revision_number" = some .null →
        r.revision_number = none) := by
  refine ⟨?_, ?_, ?_, ?_, ?_⟩
  · intro fields r h hn
    have h2 := (AcordSchemaParse_obj_ok h).2.1
    rw [hn] at h2
    exact (Except.ok.inj h2).symm
  · intro fields r h hn
    have h2 := (AcordSchemaParse_obj_ok h).2.2.1
    rw [hn] at h2
    exact (Except.ok.inj h2).symm
  · intro fields p h hn
    have h2 := parsePolicy_obj_ok h
    rw [hn] at h2
    exact (Except.ok.inj h2).symm
  · intro fields hn r h
    have h2 := parseCertificateInformation_revision h
    rw [hn] at h2
    exact Except.noConfusion h2
  · intro fields r h hnull
    have h2 := parseCertificateInformation_revision h
    rw [hnull] at h2
    exact (Except.ok.inj h2).symm

/-- C2 witness: a concrete candidate with no `insurers` key validates
and its `insurers` list is empty. -/
theorem C2_missing_field_defaults_witness :
    AcordSchemaParse (.obj noInsurersFields) = .ok candidateNullRevisionResult ∧
    getField noInsurersFields "insurers" = none ∧
    candidateNullRevisionResult.insurers = [] :=
  ⟨rfl, rfl,
    C2_missing_field_defaults.1 noInsurersFields candidateNullRevisionResult rfl rfl⟩

end InsuranceAnalyser
